import Mathlib

/-!
Shallow embedding of the bus-trip tracking backend: the route synthesizer
(lib/routing.js) and the per-trip tracking loop with stop-dwell handling
(the enhanced server file).  External effects are modelled as function
parameters: `dist` stands for the floating-point Haversine distance
`calculateDistance`, `curve` for the float expression
`Math.sin(ratio * Math.PI) * 0.0001` used by the direct-route fallback, and
`router` for the opaque OSRM routing call (which in the source never throws:
every failure path inside it falls back to the direct route).  All numeric
state is modelled over the rationals; JavaScript `NaN` outcomes of the
divisions in the stop-position estimate are modelled with `Option`.
-/

namespace Track

/-- A geographic coordinate as stored in route coordinate arrays. -/
structure Point where
  lat : ℚ
  lng : ℚ
deriving DecidableEq, Repr, Inhabited

/-- Result shape of a routing call: a coordinate path plus total distance
(kilometres) and total duration (minutes). -/
structure RouteData where
  coordinates : List Point
  distance : ℚ
  duration : ℚ
deriving DecidableEq, Repr, Inhabited

/-- Segment kinds appearing in `trip.segments` (`type` strings in the source;
any string other than the three special ones behaves as a plain waypoint). -/
inductive SegKind
  | waypoint
  | stop
  | tollEntry
  | tollExit
deriving DecidableEq, Repr, Inhabited

/-- One trip segment record. -/
structure Segment where
  id : ℕ
  order : ℤ
  kind : SegKind
  location : Point
  stop_duration : Option ℚ := none
  toll_entry_gate : Option Point := none
  toll_exit_gate : Option Point := none
deriving DecidableEq, Repr, Inhabited

/-- JavaScript falsy-default on an optional numeric field: `value || default`
(both a missing field and the number 0 are falsy). -/
def orElseFalsy (o : Option ℚ) (d : ℚ) : ℚ :=
  match o with
  | none => d
  | some x => if x = 0 then d else x

/-- JavaScript `Math.round` (round half towards positive infinity). -/
def jsRound (x : ℚ) : ℤ := ⌊x + 1/2⌋

/-- `isValidCoordinate` from lib/routing.js (finiteness checks are vacuous
over the rationals). -/
def isValidCoordinate (lat lng : ℚ) : Bool :=
  decide ((-90 ≤ lat ∧ lat ≤ 90 ∧ -180 ≤ lng ∧ lng ≤ 180) ∧ ¬(lat = 0 ∧ lng = 0))

/-- Stable ascending sort by segment `order` (JavaScript
`Array.prototype.sort` with the comparator `(a, b) => a.order - b.order`). -/
def sortByOrder (l : List Segment) : List Segment :=
  l.insertionSort (fun a b => a.order ≤ b.order)

/-- First index satisfying a predicate (`Array.prototype.findIndex`, with
`-1` rendered as `none`). -/
def firstMatchIdx {α : Type} (p : α → Bool) : List α → Option ℕ
  | [] => none
  | a :: rest => if p a then some 0 else (firstMatchIdx p rest).map (fun i => i + 1)

/-- `numPoints` of `getDirectRoute`:
`Math.max(20, Math.min(100, Math.floor(directDistance * 3)))`. -/
def directNumPoints (d : ℚ) : ℤ := max 20 (min 100 ⌊d * 3⌋)

/-- `getDirectRoute` from lib/routing.js: straight-line interpolation with a
small lateral curve added to the latitude only, duration at a flat 50 km/h. -/
def getDirectRoute (dist : Point → Point → ℚ) (curve : ℚ → ℚ)
    (s e : Point) : RouteData :=
  let d := dist s e
  let n : ℕ := (directNumPoints d).toNat
  let coords := (List.range (n + 1)).map (fun (i : ℕ) =>
    let ratio : ℚ := (i : ℚ) / (n : ℚ)
    ({ lat := s.lat + (e.lat - s.lat) * ratio + curve ratio
       lng := s.lng + (e.lng - s.lng) * ratio } : Point))
  { coordinates := coords, distance := d, duration := d / 50 * 60 }

/-- `getRouteFromOSRM` from lib/routing.js.  Invalid coordinates short-circuit
to the direct-route fallback; otherwise the opaque external call `router`
answers (in the source that call never throws: timeout, non-success and empty
responses are all converted to the direct-route fallback internally, so an
arbitrary total `router` covers every observable behaviour). -/
def getRouteFromOSRM (dist : Point → Point → ℚ) (curve : ℚ → ℚ)
    (router : Point → Point → RouteData) (s e : Point) : RouteData :=
  if isValidCoordinate s.lat s.lng && isValidCoordinate e.lat e.lng then
    router s e
  else
    getDirectRoute dist curve s e

/-- Resolved start point of a consecutive segment pair: a toll-entry segment
contributes its entry gate when present, otherwise its anchor location. -/
def pairStartPoint (cur : Segment) : Point :=
  match cur.kind, cur.toll_entry_gate with
  | SegKind.tollEntry, some g => g
  | _, _ => cur.location

/-- Resolved end point of a consecutive segment pair: toll-entry gate first,
then toll-exit gate, otherwise the anchor location. -/
def pairEndPoint (next : Segment) : Point :=
  match next.kind, next.toll_entry_gate, next.toll_exit_gate with
  | SegKind.tollEntry, some g, _ => g
  | SegKind.tollExit, _, some g => g
  | _, _, _ => next.location

/-- Accumulator of the synthesizer's pair loop. -/
structure SynthAcc where
  totalDistance : ℚ
  totalDuration : ℚ
  allCoordinates : List Point
deriving DecidableEq, Repr, Inhabited

/-- One iteration of the pair loop of `calculateRouteFromSegments` (pair
index `i`, current and next segment). -/
def synthStep (dist : Point → Point → ℚ) (curve : ℚ → ℚ)
    (router : Point → Point → RouteData)
    (i : ℕ) (cur next : Segment) (acc : SynthAcc) : SynthAcc :=
  if !(isValidCoordinate cur.location.lat cur.location.lng &&
       isValidCoordinate next.location.lat next.location.lng) then
    acc
  else
    let s := pairStartPoint cur
    let e := pairEndPoint next
    if dist s e < 1/100 then
      acc
    else
      let rd := getRouteFromOSRM dist curve router s e
      let rd := if rd.coordinates = [] then getDirectRoute dist curve s e else rd
      let td := acc.totalDistance + rd.distance
      let tu := acc.totalDuration + rd.duration +
        (if cur.kind = SegKind.stop then orElseFalsy cur.stop_duration 0 else 0)
      let coords :=
        if i = 0 then
          acc.allCoordinates ++ rd.coordinates
        else
          let bridge : List Point :=
            match acc.allCoordinates.getLast?, rd.coordinates.head? with
            | some lastC, some firstC =>
                if 1/10 < dist lastC firstC then [firstC] else []
            | _, _ => []
          acc.allCoordinates ++ bridge ++ rd.coordinates.tail
      { totalDistance := td, totalDuration := tu, allCoordinates := coords }

/-- The pair loop of `calculateRouteFromSegments` over the sorted segment
list (`i` is the pair index, as in the source's `for` loop). -/
def synthLoop (dist : Point → Point → ℚ) (curve : ℚ → ℚ)
    (router : Point → Point → RouteData) :
    ℕ → List Segment → SynthAcc → SynthAcc
  | _, [], acc => acc
  | _, [_], acc => acc
  | i, cur :: next :: rest, acc =>
      synthLoop dist curve router (i + 1) (next :: rest)
        (synthStep dist curve router i cur next acc)

/-- `calculateRouteFromSegments` from lib/routing.js.  An empty segment list
is the only input on which the source propagates an error (`throw` inside the
`try`, re-raised by the `catch` because `segments.length >= 2` fails). -/
def calculateRouteFromSegments (dist : Point → Point → ℚ) (curve : ℚ → ℚ)
    (router : Point → Point → RouteData)
    (segments : List Segment) : Except String RouteData :=
  match segments with
  | [] => Except.error ("Unable to calculate any route from the provided segments")
  | [seg] =>
      Except.ok
        { coordinates :=
            [seg.location,
             ({ lat := seg.location.lat + 1/1000,
                lng := seg.location.lng + 1/1000 } : Point),
             seg.location],
          distance := 1/10,
          duration := 1 }
  | s1 :: s2 :: rest =>
      let sorted := sortByOrder (s1 :: s2 :: rest)
      let acc := synthLoop dist curve router 0 sorted
        { totalDistance := 0, totalDuration := 0, allCoordinates := [] }
      let acc :=
        if acc.allCoordinates = [] then
          let fb := getRouteFromOSRM dist curve router
            sorted.headI.location sorted.getLastI.location
          { totalDistance := fb.distance, totalDuration := fb.duration,
            allCoordinates := fb.coordinates }
        else acc
      Except.ok
        { coordinates := acc.allCoordinates,
          distance := max (1/10) acc.totalDistance,
          duration := ((jsRound (max 1 acc.totalDuration) : ℤ) : ℚ) }

/-- `getRealisticSpeed` from the tracking server: classify the trip (toll /
distance band), draw an integer baseline, add an integer variation in
[-10, 5], clamp to [20, 85].  `r1` and `r2` are the two `Math.random()`
draws (in [0, 1)). -/
def getRealisticSpeed (distance : ℚ) (tripSegments : Option (List Segment))
    (r1 r2 : ℚ) : ℤ :=
  let hasToll :=
    match tripSegments with
    | none => false
    | some segs => segs.any (fun s =>
        decide (s.kind = SegKind.tollEntry ∨ s.kind = SegKind.tollExit))
  let baseSpeed : ℤ :=
    if hasToll then ⌊r1 * 61⌋ + 40
    else if distance < 50 then ⌊r1 * 46⌋ + 5
    else if distance < 150 then ⌊r1 * 31⌋ + 20
    else ⌊r1 * 61⌋ + 20
  let variation : ℤ := ⌊r2 * 16⌋ - 10
  max 20 (min 85 (baseSpeed + variation))

/-- Ephemeral per-trip stop-dwell state (`stopStates` map entries). -/
structure StopState where
  currentStopIndex : ℤ
  stopStartTime : Option ℚ
  isAtStop : Bool
  stopSegments : List Segment
  totalStopDuration : ℚ
deriving DecidableEq, Repr, Inhabited

/-- A stop segment's contribution to the aggregate stop-duration estimate:
`segment.stop_duration || 0`. -/
def stopDurationContribution (s : Segment) : ℚ := orElseFalsy s.stop_duration 0

/-- The dwell the machine actually enforces at a stop:
`stopSegment.stop_duration || 30`. -/
def requiredStopDuration (s : Segment) : ℚ := orElseFalsy s.stop_duration 30

/-- Stop-state initialisation at `startTripTracking` time. -/
def initStopState (segments : Option (List Segment)) : StopState :=
  let stopSegments :=
    match segments with
    | none => []
    | some segs => sortByOrder (segs.filter (fun s => decide (s.kind = SegKind.stop)))
  { currentStopIndex := -1, stopStartTime := none, isAtStop := false,
    stopSegments := stopSegments,
    totalStopDuration := (stopSegments.map stopDurationContribution).sum }

/-- `findStopPositionInRoute`: rank of the stop among all ordered segments,
mapped proportionally to a path index.  `none` models the JavaScript `NaN`
produced by `0 / 0` when there is exactly one segment. -/
def findStopPositionInRoute (stopSegment : Segment) (routeCoordinates : List Point)
    (allSegments : List Segment) : Option ℤ :=
  let ordered := sortByOrder allSegments
  match firstMatchIdx (fun s => decide (s.id = stopSegment.id)) ordered with
  | none => some 0
  | some stopIndex =>
      if ordered.length = 1 then none
      else
        let L : ℤ := (routeCoordinates.length : ℤ)
        let ratio : ℚ := (stopIndex : ℚ) / ((ordered.length : ℚ) - 1)
        some (min ⌊ratio * ((L : ℚ) - 1)⌋ (L - 1))

/-- The stop's completion-fraction estimate used by the tick's stop scan:
`(stopRouteIndex / (routeCoordinates.length - 1)) * 100`.  `none` models the
`NaN` cases (single segment, or a single-point path). -/
def stopProgressPercent (stopSegment : Segment) (routeCoordinates : List Point)
    (allSegments : List Segment) : Option ℚ :=
  match findStopPositionInRoute stopSegment routeCoordinates allSegments with
  | none => none
  | some idx =>
      if routeCoordinates.length = 1 then none
      else some ((idx : ℚ) / ((routeCoordinates.length : ℚ) - 1) * 100)

/-- The tick's window test for one stop:
`newProgress >= percent - 2 && newProgress <= percent + 2` (false on `NaN`). -/
def windowMatch (prog : ℚ) (stopSegment : Segment) (routeCoordinates : List Point)
    (allSegments : List Segment) : Bool :=
  match stopProgressPercent stopSegment routeCoordinates allSegments with
  | none => false
  | some p => decide (p - 2 ≤ prog ∧ prog ≤ p + 2)

/-- Elapsed minutes at a stop:
`stopStartTime ? (now - stopStartTime) / (1000 * 60) : 0` (a timestamp of 0
is falsy in JavaScript). -/
def jsElapsedMinutes (now : ℚ) (startT : Option ℚ) : ℚ :=
  match startT with
  | none => 0
  | some t => if t = 0 then 0 else (now - t) / 60000

/-- Outcome of the tick's stop scan: hold at a stop, release from a stop this
tick, or no candidate matched (`pass`). -/
inductive ScanOut
  | hold (st : StopState)
  | release (st : StopState)
  | pass (st : StopState)
deriving DecidableEq, Repr, Inhabited

/-- Arrival bookkeeping when a stop window is first entered. -/
def arriveAt (st : StopState) (i : ℕ) (now : ℚ) : StopState :=
  { st with isAtStop := true, currentStopIndex := (i : ℤ), stopStartTime := some now }

/-- Departure bookkeeping once the dwell is satisfied. -/
def departStop (st : StopState) : StopState :=
  { st with isAtStop := false, currentStopIndex := -1, stopStartTime := none }

/-- Body of the stop scan for a matched candidate stop `s` at scan index `i`
(the `break`-terminated branch of the source's `for` loop). -/
def scanStepAt (now : ℚ) (s : Segment) (i : ℕ) (st : StopState) : ScanOut :=
  let st1 :=
    if !st.isAtStop || decide (st.currentStopIndex ≠ (i : ℤ)) then
      arriveAt st i now
    else st
  let elapsed := jsElapsedMinutes now st1.stopStartTime
  if elapsed < requiredStopDuration s then
    ScanOut.hold st1
  else
    ScanOut.release (if st1.isAtStop then departStop st1 else st1)

/-- The tick's scan over the ordered stop segments: the first stop whose
window contains the current progress wins; later stops are not examined. -/
def scanStops (prog now : ℚ) (routeCoordinates : List Point)
    (allSegments : List Segment) :
    ℕ → List Segment → StopState → ScanOut
  | _, [], st => ScanOut.pass st
  | i, s :: rest, st =>
      if windowMatch prog s routeCoordinates allSegments then
        scanStepAt now s i st
      else
        scanStops prog now routeCoordinates allSegments (i + 1) rest st

/-- Position derivation of the tick: map the completion fraction to a path
index (`Math.floor((newProgress / 100) * (length - 1))`), with
`routeCoordinates[routeIndex] || routeCoordinates[0]` as in the source; an
empty path retains the previously known coordinate. -/
def derivePosition (routeCoordinates : List Point) (newProgress : ℚ)
    (prevLat prevLng : Option ℚ) : Option ℚ × Option ℚ :=
  match routeCoordinates with
  | [] => (prevLat, prevLng)
  | c :: cs =>
      let routeIndex : ℤ :=
        ⌊newProgress / 100 * (((c :: cs).length : ℚ) - 1)⌋
      let pos := ((c :: cs).get? routeIndex.toNat).getD c
      (some pos.lat, some pos.lng)

/-- The per-tick speed sample while moving:
`Math.max(15, Math.min(90, realisticSpeed + (Math.random() - 0.5) * 10))`. -/
def tickSpeedSample (realisticSpeed : ℤ) (rand : ℚ) : ℚ :=
  max 15 (min 90 ((realisticSpeed : ℤ) + (rand - 1/2) * 10 : ℚ))

/-- Result of one tick of the tracking loop (the fields the loop writes). -/
structure TickResult where
  newProgress : ℚ
  speed : ℤ
  lat : Option ℚ
  lng : Option ℚ
  isMoving : Bool
  stopState : StopState
  completed : Bool
deriving DecidableEq, Repr, Inhabited

/-- Assemble the tick result from the scan outcome. -/
def tickAssemble (routeCoordinates : List Point) (ppu : ℚ) (rs : ℤ)
    (rand prog : ℚ) (prevLat prevLng : Option ℚ) : ScanOut → TickResult
  | ScanOut.hold st =>
      let np := prog
      let p := derivePosition routeCoordinates np prevLat prevLng
      { newProgress := np, speed := 0, lat := p.1, lng := p.2,
        isMoving := false, stopState := st, completed := decide (100 ≤ np) }
  | ScanOut.release st =>
      let np := min 100 (prog + ppu)
      let p := derivePosition routeCoordinates np prevLat prevLng
      { newProgress := np, speed := jsRound (tickSpeedSample rs rand),
        lat := p.1, lng := p.2, isMoving := true, stopState := st,
        completed := decide (100 ≤ np) }
  | ScanOut.pass st =>
      let np := min 100 (prog + ppu)
      let p := derivePosition routeCoordinates np prevLat prevLng
      { newProgress := np, speed := jsRound (tickSpeedSample rs rand),
        lat := p.1, lng := p.2, isMoving := true, stopState := st,
        completed := decide (100 ≤ np) }

/-- One tick of the tracking interval callback in `startTripTracking`:
scan the stops, then either hold (fraction unchanged, speed 0) or advance
`min(100, progress + progressPerUpdate)` with a fresh speed sample, then
derive the position from the path. -/
def tick (routeCoordinates : List Point) (allSegments : List Segment)
    (ppu : ℚ) (rs : ℤ) (now rand prog : ℚ)
    (prevLat prevLng : Option ℚ) (st : StopState) : TickResult :=
  tickAssemble routeCoordinates ppu rs rand prog prevLat prevLng
    (scanStops prog now routeCoordinates allSegments 0 st.stopSegments st)

/-- `pureTravelTimeMinutes` of `startTripTracking`:
`estimatedDuration || ((totalDistance / realisticSpeed) * 60)`. -/
def pureTravelTimeMinutes (estimatedDuration totalDistance : ℚ)
    (realisticSpeed : ℤ) : ℚ :=
  if estimatedDuration = 0 then totalDistance / (realisticSpeed : ℚ) * 60
  else estimatedDuration

/-- `totalTravelUpdates`: `Math.ceil(pureTravelTimeMinutes * 60 / 20)`. -/
def totalTravelUpdates (pureMinutes : ℚ) : ℤ := ⌈pureMinutes * 60 / 20⌉

/-- `progressPerUpdate`: `100 / totalTravelUpdates`, fixed once at task
start. -/
def progressPerUpdate (pureMinutes : ℚ) : ℚ :=
  100 / ((totalTravelUpdates pureMinutes : ℤ) : ℚ)

/-! ### Helper lemmas -/

lemma calcRoute_cons_cons (dist : Point → Point → ℚ) (curve : ℚ → ℚ)
    (router : Point → Point → RouteData) (s1 s2 : Segment) (rest : List Segment) :
    ∃ acc : SynthAcc,
      calculateRouteFromSegments dist curve router (s1 :: s2 :: rest) =
        Except.ok
          { coordinates := acc.allCoordinates,
            distance := max (1/10) acc.totalDistance,
            duration := ((jsRound (max 1 acc.totalDuration) : ℤ) : ℚ) } :=
  ⟨_, rfl⟩

lemma jsRound_ge_one (x : ℚ) : (1 : ℤ) ≤ jsRound (max 1 x) := by
  unfold jsRound
  rw [Int.le_floor]
  have h1 : (1 : ℚ) ≤ max 1 x := le_max_left _ _
  push_cast
  linarith

lemma scanStops_eq_firstMatch (prog now : ℚ) (coords : List Point)
    (allSegs : List Segment) (stops : List Segment) :
    ∀ (k : ℕ) (st : StopState),
      scanStops prog now coords allSegs k stops st =
        (match firstMatchIdx (fun x => windowMatch prog x coords allSegs) stops with
         | none => ScanOut.pass st
         | some i => scanStepAt now (stops.getD i default) (k + i) st) := by
  induction stops with
  | nil => intro k st; rfl
  | cons s rest ih =>
      intro k st
      by_cases h : windowMatch prog s coords allSegs
      · simp [scanStops, firstMatchIdx, h]
      · have hskip : scanStops prog now coords allSegs k (s :: rest) st =
            scanStops prog now coords allSegs (k + 1) rest st := by
          simp [scanStops, h]
        rw [hskip, ih (k + 1) st]
        cases hfm : firstMatchIdx (fun x => windowMatch prog x coords allSegs) rest with
        | none => simp [firstMatchIdx, h, hfm]
        | some i =>
            simp only [firstMatchIdx, h, Bool.false_eq_true, if_false, hfm,
              Option.map_some']
            have h2 : k + 1 + i = k + (i + 1) := by omega
            rw [h2]
            rfl

lemma firstMatchIdx_of_first {α : Type} [Inhabited α] (p : α → Bool)
    (l : List α) (i : ℕ) (hi : i < l.length)
    (hall : (l.take i).all (fun x => !p x) = true)
    (hp : p (l.getD i default) = true) :
    firstMatchIdx p l = some i := by
  induction l generalizing i with
  | nil => exact absurd hi (Nat.not_lt_zero i)
  | cons x rest ih =>
      cases i with
      | zero =>
          simp only [List.getD_cons_zero] at hp
          simp [firstMatchIdx, hp]
      | succ j =>
          simp only [List.take_succ_cons, List.all_cons, Bool.and_eq_true,
            Bool.not_eq_true'] at hall
          have hj : j < rest.length := Nat.lt_of_succ_lt_succ hi
          have := ih j hj hall.2 hp
          simp [firstMatchIdx, hall.1, this]

lemma firstMatchIdx_spec {α : Type} [Inhabited α] (p : α → Bool)
    (l : List α) (i : ℕ) (h : firstMatchIdx p l = some i) :
    p (l.getD i default) = true ∧ (l.take i).all (fun x => !p x) = true := by
  induction l generalizing i with
  | nil => exact absurd h (by simp [firstMatchIdx])
  | cons x rest ih =>
      by_cases hx : p x
      · have h0 : i = 0 := by
          simp [firstMatchIdx, hx] at h
          omega
        subst h0
        simpa using hx
      · simp only [firstMatchIdx, hx, Bool.false_eq_true, if_false] at h
        obtain ⟨j, hj, rfl⟩ := Option.map_eq_some'.mp h
        obtain ⟨h1, h2⟩ := ih j hj
        refine ⟨h1, ?_⟩
        simp [List.take_succ_cons, hx, h2]

lemma scanStepAt_at_stop (now t0 : ℚ) (s : Segment) (i : ℕ) (st : StopState)
    (hat : st.isAtStop = true) (hidx : st.currentStopIndex = (i : ℤ))
    (ht : st.stopStartTime = some t0) (ht0 : t0 ≠ 0) :
    scanStepAt now s i st =
      (if (now - t0) / 60000 < requiredStopDuration s then ScanOut.hold st
       else ScanOut.release (departStop st)) := by
  simp [scanStepAt, hat, hidx, ht, jsElapsedMinutes, ht0]

/-! ### Concrete fixtures used by witnesses and counterexample inputs -/

/-- A distance oracle that returns 0 everywhere. -/
def zeroDist : Point → Point → ℚ := fun _ _ => 0

/-- A curve-offset oracle that returns 0 everywhere. -/
def zeroCurve : ℚ → ℚ := fun _ => 0

/-- A concrete coordinate. -/
def wP1 : Point := ⟨1, 1⟩

/-- A concrete coordinate. -/
def wP2 : Point := ⟨2, 2⟩

/-- A concrete three-point path. -/
def wPath : List Point := [⟨0, 0⟩, ⟨1, 1⟩, ⟨2, 2⟩]

/-- A distance oracle for the concrete synthesizer run: 0 between equal
points, 10 km otherwise. -/
def cDist : Point → Point → ℚ := fun p q => if p = q then 0 else 10

/-- A routing oracle for the concrete synthesizer run: a two-point leg of
10 km taking 15 minutes. -/
def cRouter : Point → Point → RouteData :=
  fun p q => { coordinates := [p, q], distance := 10, duration := 15 }

/-- Concrete segments: waypoint, 30-minute stop, waypoint. -/
def cSegA : Segment := { id := 0, order := 0, kind := SegKind.waypoint, location := ⟨1, 1⟩ }

/-- The 30-minute stop of the concrete trip. -/
def cSegB : Segment :=
  { id := 1, order := 1, kind := SegKind.stop, location := ⟨2, 2⟩,
    stop_duration := some 30 }

/-- Final waypoint of the concrete trip. -/
def cSegC : Segment := { id := 2, order := 2, kind := SegKind.waypoint, location := ⟨3, 3⟩ }

/-- A concrete waypoint segment preceding the witness stop. -/
def wWay0 : Segment := { id := 10, order := 0, kind := SegKind.waypoint, location := ⟨1, 1⟩ }

/-- A concrete stop segment with a 15-minute dwell. -/
def wStopSeg : Segment :=
  { id := 11, order := 1, kind := SegKind.stop, location := ⟨2, 2⟩,
    stop_duration := some 15 }

/-- A concrete waypoint segment following the witness stop. -/
def wWay2 : Segment := { id := 12, order := 2, kind := SegKind.waypoint, location := ⟨3, 3⟩ }

/-- The concrete full segment list of the witness trip. -/
def wSegs : List Segment := [wWay0, wStopSeg, wWay2]

/-- An 11-point concrete path; the witness stop's estimated fraction on it
is 50. -/
def wCoords11 : List Point :=
  [⟨0, 0⟩, ⟨1, 1⟩, ⟨2, 2⟩, ⟨3, 3⟩, ⟨4, 4⟩, ⟨5, 5⟩, ⟨6, 6⟩, ⟨7, 7⟩, ⟨8, 8⟩,
   ⟨9, 9⟩, ⟨10, 10⟩]

/-- A concrete dwell state: at the witness stop (index 0) since timestamp
600000 ms. -/
def wState : StopState :=
  { currentStopIndex := 0, stopStartTime := some 600000, isAtStop := true,
    stopSegments := [wStopSeg], totalStopDuration := 15 }

/-- A concrete stop segment whose `stop_duration` field is absent. -/
def wStopDefault : Segment :=
  { id := 20, order := 1, kind := SegKind.stop, location := ⟨2, 2⟩ }

lemma wStop_windowMatch : windowMatch 50 wStopSeg wCoords11 wSegs = true := by
  norm_num [windowMatch, stopProgressPercent, findStopPositionInRoute,
    firstMatchIdx, sortByOrder, List.insertionSort, List.orderedInsert,
    wSegs, wWay0, wWay2, wStopSeg, wCoords11, min_def]

/-! ### Claim theorems -/

/-- C4: the Route Synthesizer `calculateRouteFromSegments` succeeds (returns
a path with total distance and duration) exactly when the input segment list
is non-empty; it propagates an error if and only if the list is empty. -/
theorem calcRoute_ok_iff_nonempty (dist : Point → Point → ℚ) (curve : ℚ → ℚ)
    (router : Point → Point → RouteData) (segments : List Segment) :
    (∃ r, calculateRouteFromSegments dist curve router segments = Except.ok r) ↔
      segments ≠ [] := by
  cases segments with
  | nil => simp [calculateRouteFromSegments]
  | cons a l =>
      cases l with
      | nil => simp [calculateRouteFromSegments]
      | cons b l2 =>
          constructor
          · intro _
            simp
          · intro _
            exact ⟨_, rfl⟩

/-- C7: for every non-empty segment list the synthesizer's returned total
distance is at least 0.1 km and its returned total duration is at least 1
minute (the final values are floored to these minima). -/
theorem calcRoute_minimum_floors (dist : Point → Point → ℚ) (curve : ℚ → ℚ)
    (router : Point → Point → RouteData) (segments : List Segment)
    (h : segments ≠ []) :
    ∃ r, calculateRouteFromSegments dist curve router segments = Except.ok r ∧
      (1/10 : ℚ) ≤ r.distance ∧ (1 : ℚ) ≤ r.duration := by
  match segments with
  | [] => exact absurd rfl h
  | [seg] =>
      refine ⟨_, rfl, by norm_num, by norm_num⟩
  | s1 :: s2 :: rest =>
      obtain ⟨acc, hacc⟩ := calcRoute_cons_cons dist curve router s1 s2 rest
      refine ⟨_, hacc, le_max_left _ _, ?_⟩
      show (1 : ℚ) ≤ ((jsRound (max 1 acc.totalDuration) : ℤ) : ℚ)
      exact_mod_cast jsRound_ge_one acc.totalDuration

/-- C7 witness: a concrete non-empty segment list on which the minimum
floors hold. -/
theorem calcRoute_minimum_floors_witness :
    ∃ r, calculateRouteFromSegments (fun _ _ => 0) (fun _ => 0)
        (fun _ _ => { coordinates := [], distance := 0, duration := 0 })
        [{ id := 0, order := 0, kind := SegKind.waypoint, location := ⟨1, 1⟩ }] =
        Except.ok r ∧
      (1/10 : ℚ) ≤ r.distance ∧ (1 : ℚ) ≤ r.duration :=
  calcRoute_minimum_floors _ _ _ _ (by simp)

/-- C6: the sampled baseline speed is an integer in [20, 85] for every
distance, segment list and random draw; the per-tick speed sample (and its
rounded written value) lies in [15, 90]; and the speed the tick writes is
exactly the rounded sample when moving and exactly 0 on every holding
tick. -/
theorem speed_model_bounds (distance : ℚ) (segs : Option (List Segment))
    (r1 r2 : ℚ) (coords : List Point) (allSegs : List Segment) (ppu : ℚ)
    (rs : ℤ) (now rand prog : ℚ) (pl pg : Option ℚ) (st : StopState) :
    (20 ≤ getRealisticSpeed distance segs r1 r2 ∧
      getRealisticSpeed distance segs r1 r2 ≤ 85) ∧
    ((15 : ℚ) ≤ tickSpeedSample rs rand ∧ tickSpeedSample rs rand ≤ 90) ∧
    ((15 : ℤ) ≤ jsRound (tickSpeedSample rs rand) ∧
      jsRound (tickSpeedSample rs rand) ≤ 90) ∧
    (tick coords allSegs ppu rs now rand prog pl pg st).speed =
      (if (tick coords allSegs ppu rs now rand prog pl pg st).isMoving = true
       then jsRound (tickSpeedSample rs rand) else 0) := by
  have hsample1 : (15 : ℚ) ≤ tickSpeedSample rs rand := le_max_left _ _
  have hsample2 : tickSpeedSample rs rand ≤ 90 :=
    max_le (by norm_num) (min_le_left _ _)
  refine ⟨⟨le_max_left _ _, max_le (by norm_num) (min_le_left _ _)⟩,
    ⟨hsample1, hsample2⟩, ⟨?_, ?_⟩, ?_⟩
  · unfold jsRound
    rw [Int.le_floor]
    push_cast
    linarith
  · unfold jsRound
    have hfl : ((⌊tickSpeedSample rs rand + 1/2⌋ : ℤ) : ℚ) ≤
        tickSpeedSample rs rand + 1/2 := Int.floor_le _
    have hlt : ((⌊tickSpeedSample rs rand + 1/2⌋ : ℤ) : ℚ) < 91 := by linarith
    have : (⌊tickSpeedSample rs rand + 1/2⌋ : ℤ) < 91 := by exact_mod_cast hlt
    omega
  · cases hscan : scanStops prog now coords allSegs 0 st.stopSegments st <;>
      simp [tick, tickAssemble, hscan]

/-- C3: on every tick taken while the trip is in progress (progress below
100), the completion fraction is non-decreasing: the tick either holds it
exactly constant (on a dwell hold) or advances it to
`min 100 (progress + progressPerUpdate)`, a strict increase, and the written
fraction never exceeds 100. -/
theorem progress_monotone_tick (coords : List Point) (allSegs : List Segment)
    (ppu : ℚ) (rs : ℤ) (now rand prog : ℚ) (pl pg : Option ℚ) (st : StopState)
    (hppu : 0 < ppu) (hprog : prog < 100) :
    prog ≤ (tick coords allSegs ppu rs now rand prog pl pg st).newProgress ∧
    (tick coords allSegs ppu rs now rand prog pl pg st).newProgress ≤ 100 ∧
    (tick coords allSegs ppu rs now rand prog pl pg st).newProgress =
      (if (tick coords allSegs ppu rs now rand prog pl pg st).isMoving = true
       then min 100 (prog + ppu) else prog) ∧
    prog < min 100 (prog + ppu) := by
  have hmin : prog < min 100 (prog + ppu) := lt_min hprog (by linarith)
  cases hscan : scanStops prog now coords allSegs 0 st.stopSegments st with
  | hold st' =>
      simp only [tick, tickAssemble, hscan]
      exact ⟨le_refl _, hprog.le, by simp, hmin⟩
  | release st' =>
      simp only [tick, tickAssemble, hscan]
      exact ⟨hmin.le, min_le_left _ _, by simp, hmin⟩
  | pass st' =>
      simp only [tick, tickAssemble, hscan]
      exact ⟨hmin.le, min_le_left _ _, by simp, hmin⟩

/-- C5: for a completion fraction in [0, 100] and a non-empty path, the tick
derives the path point at index `floor(f / 100 * (N - 1))`, which already
lies within [0, N - 1] (so clamping it there is the identity); an empty path
retains the previously known coordinate. -/
theorem position_derivation (coords : List Point) (f : ℚ) (pl pg : Option ℚ)
    (hne : coords ≠ []) (hf0 : 0 ≤ f) (hf1 : f ≤ 100) :
    derivePosition [] f pl pg = (pl, pg) ∧
    0 ≤ ⌊f / 100 * ((coords.length : ℚ) - 1)⌋ ∧
    ⌊f / 100 * ((coords.length : ℚ) - 1)⌋ ≤ (coords.length : ℤ) - 1 ∧
    ∃ p, coords.get? (⌊f / 100 * ((coords.length : ℚ) - 1)⌋).toNat = some p ∧
      derivePosition coords f pl pg = (some p.lat, some p.lng) := by
  cases coords with
  | nil => exact absurd rfl hne
  | cons c cs =>
      have hN : 1 ≤ (c :: cs).length := Nat.succ_le_succ (Nat.zero_le _)
      have hN1 : (1 : ℚ) ≤ ((c :: cs).length : ℚ) := by exact_mod_cast hN
      have harg0 : (0 : ℚ) ≤ f / 100 * (((c :: cs).length : ℚ) - 1) :=
        mul_nonneg (div_nonneg hf0 (by norm_num)) (by linarith)
      have hfloor0 : 0 ≤ ⌊f / 100 * (((c :: cs).length : ℚ) - 1)⌋ :=
        Int.floor_nonneg.mpr harg0
      have hf100 : f / 100 ≤ 1 := (div_le_one (by norm_num)).mpr hf1
      have hargle : f / 100 * (((c :: cs).length : ℚ) - 1) ≤
          ((c :: cs).length : ℚ) - 1 := by
        have := mul_le_mul_of_nonneg_right hf100 (by linarith :
          (0 : ℚ) ≤ ((c :: cs).length : ℚ) - 1)
        linarith
      have hcast : (((c :: cs).length : ℚ) - 1) =
          ((((c :: cs).length : ℤ) - 1 : ℤ) : ℚ) := by push_cast; ring
      have hfloorle : ⌊f / 100 * (((c :: cs).length : ℚ) - 1)⌋ ≤
          ((c :: cs).length : ℤ) - 1 := by
        have h2 : ⌊(((c :: cs).length : ℚ) - 1)⌋ = ((c :: cs).length : ℤ) - 1 := by
          rw [hcast]
          exact Int.floor_intCast _
        exact (Int.floor_le_floor (α := ℚ) hargle).trans (le_of_eq h2)
      have hNz : 1 ≤ ((c :: cs).length : ℤ) := by exact_mod_cast hN
      have hlt : (⌊f / 100 * (((c :: cs).length : ℚ) - 1)⌋).toNat <
          (c :: cs).length := by omega
      refine ⟨rfl, hfloor0, hfloorle,
        (c :: cs).get ⟨_, hlt⟩, List.get?_eq_get hlt, ?_⟩
      simp only [derivePosition]
      rw [List.get?_eq_get hlt]
      rfl

/-- C5 witness: the position-derivation theorem at a concrete fraction and
path. -/
theorem position_derivation_witness :
    derivePosition [] 50 none none = (none, none) ∧
    0 ≤ ⌊(50 : ℚ) / 100 * ((wPath.length : ℚ) - 1)⌋ ∧
    ⌊(50 : ℚ) / 100 * ((wPath.length : ℚ) - 1)⌋ ≤ (wPath.length : ℤ) - 1 ∧
    ∃ p, wPath.get? (⌊(50 : ℚ) / 100 * ((wPath.length : ℚ) - 1)⌋).toNat = some p ∧
      derivePosition wPath 50 none none = (some p.lat, some p.lng) :=
  position_derivation wPath 50 none none (by simp [wPath]) (by norm_num)
    (by norm_num)

/-- C8: the direct-route fallback interpolates linearly between the two
points with the subdivision parameter clamped to [20, 100] (about three per
kilometre), adds the curve offset only to the latitude component (the
longitude is exact linear interpolation), and reports a duration of
distance over a flat 50 km/h. -/
theorem direct_route_shape (dist : Point → Point → ℚ) (curve : ℚ → ℚ)
    (s e : Point) (k : ℕ)
    (hk : k < (directNumPoints (dist s e)).toNat + 1) :
    20 ≤ directNumPoints (dist s e) ∧
    directNumPoints (dist s e) ≤ 100 ∧
    (getDirectRoute dist curve s e).coordinates.length =
      (directNumPoints (dist s e)).toNat + 1 ∧
    (getDirectRoute dist curve s e).distance = dist s e ∧
    (getDirectRoute dist curve s e).duration = dist s e / 50 * 60 ∧
    (getDirectRoute dist curve s e).coordinates[k]? =
      some ({ lat := s.lat + (e.lat - s.lat) *
                  ((k : ℚ) / (((directNumPoints (dist s e)).toNat : ℕ) : ℚ)) +
                curve ((k : ℚ) / (((directNumPoints (dist s e)).toNat : ℕ) : ℚ)),
              lng := s.lng + (e.lng - s.lng) *
                  ((k : ℚ) / (((directNumPoints (dist s e)).toNat : ℕ) : ℚ)) } :
        Point) := by
  refine ⟨le_max_left _ _, max_le (by norm_num) (min_le_left _ _), ?_, rfl, rfl, ?_⟩
  · simp only [getDirectRoute]
    rw [List.length_map, List.length_range]
  · simp only [getDirectRoute]
    rw [List.getElem?_map, List.getElem?_range hk]
    rfl

/-- C8 witness: the direct-route shape theorem at concrete endpoints. -/
theorem direct_route_shape_witness :
    20 ≤ directNumPoints (zeroDist wP1 wP2) ∧
    directNumPoints (zeroDist wP1 wP2) ≤ 100 ∧
    (getDirectRoute zeroDist zeroCurve wP1 wP2).coordinates.length =
      (directNumPoints (zeroDist wP1 wP2)).toNat + 1 ∧
    (getDirectRoute zeroDist zeroCurve wP1 wP2).distance = zeroDist wP1 wP2 ∧
    (getDirectRoute zeroDist zeroCurve wP1 wP2).duration =
      zeroDist wP1 wP2 / 50 * 60 ∧
    (getDirectRoute zeroDist zeroCurve wP1 wP2).coordinates[0]? =
      some ({ lat := wP1.lat + (wP2.lat - wP1.lat) *
                  ((0 : ℚ) / (((directNumPoints (zeroDist wP1 wP2)).toNat : ℕ) : ℚ)) +
                zeroCurve ((0 : ℚ) /
                  (((directNumPoints (zeroDist wP1 wP2)).toNat : ℕ) : ℚ)),
              lng := wP1.lng + (wP2.lng - wP1.lng) *
                  ((0 : ℚ) / (((directNumPoints (zeroDist wP1 wP2)).toNat : ℕ) : ℚ)) } :
        Point) :=
  direct_route_shape zeroDist zeroCurve wP1 wP2 0 (Nat.succ_pos _)

/-- C2: with the dwell machine at stop `i` (the first stop whose window
contains the current fraction) and a recorded arrival time, a tick with
elapsed minutes below the required dwell writes the fraction unchanged with
speed 0 and keeps the state; the first tick with elapsed at or above the
required dwell returns the machine to not-at-stop and advances the fraction
on that same tick. -/
theorem dwell_hold_and_release (coords : List Point) (allSegs : List Segment)
    (ppu : ℚ) (rs : ℤ) (now rand prog : ℚ) (pl pg : Option ℚ)
    (st : StopState) (i : ℕ) (s : Segment) (t0 : ℚ)
    (hi : i < st.stopSegments.length)
    (hs : st.stopSegments.getD i default = s)
    (hall : (st.stopSegments.take i).all
        (fun x => !windowMatch prog x coords allSegs) = true)
    (hmatch : windowMatch prog s coords allSegs = true)
    (hat : st.isAtStop = true)
    (hidx : st.currentStopIndex = (i : ℤ))
    (ht : st.stopStartTime = some t0)
    (ht0 : t0 ≠ 0)
    (hppu : 0 < ppu) (hprog : prog < 100) :
    (tick coords allSegs ppu rs now rand prog pl pg st).newProgress =
      (if (now - t0) / 60000 < requiredStopDuration s then prog
       else min 100 (prog + ppu)) ∧
    (tick coords allSegs ppu rs now rand prog pl pg st).speed =
      (if (now - t0) / 60000 < requiredStopDuration s then 0
       else jsRound (tickSpeedSample rs rand)) ∧
    (tick coords allSegs ppu rs now rand prog pl pg st).stopState =
      (if (now - t0) / 60000 < requiredStopDuration s then st else departStop st) ∧
    prog < min 100 (prog + ppu) := by
  have hp : windowMatch prog (st.stopSegments.getD i default) coords allSegs = true :=
    hs ▸ hmatch
  have hfm := firstMatchIdx_of_first (fun x => windowMatch prog x coords allSegs)
    st.stopSegments i hi hall hp
  have hscan := scanStops_eq_firstMatch prog now coords allSegs st.stopSegments 0 st
  rw [hfm] at hscan
  have hscan2 : scanStops prog now coords allSegs 0 st.stopSegments st =
      scanStepAt now (st.stopSegments.getD i default) (0 + i) st := hscan
  rw [hs, Nat.zero_add] at hscan2
  rw [scanStepAt_at_stop now t0 s i st hat hidx ht ht0] at hscan2
  by_cases hel : (now - t0) / 60000 < requiredStopDuration s
  · rw [if_pos hel] at hscan2
    refine ⟨?_, ?_, ?_, lt_min hprog (by linarith)⟩ <;>
      simp [tick, tickAssemble, hscan2, hel]
  · rw [if_neg hel] at hscan2
    refine ⟨?_, ?_, ?_, lt_min hprog (by linarith)⟩ <;>
      simp [tick, tickAssemble, hscan2, hel]

/-- C2 witness: the dwell theorem at a concrete tick, 5 minutes into a
15-minute required stop. -/
theorem dwell_hold_and_release_witness :
    (tick wCoords11 wSegs 1 50 900000 (1/2) 50 none none wState).newProgress =
      (if (900000 - 600000 : ℚ) / 60000 < requiredStopDuration wStopSeg then (50 : ℚ)
       else min 100 (50 + 1)) ∧
    (tick wCoords11 wSegs 1 50 900000 (1/2) 50 none none wState).speed =
      (if (900000 - 600000 : ℚ) / 60000 < requiredStopDuration wStopSeg then 0
       else jsRound (tickSpeedSample 50 (1/2))) ∧
    (tick wCoords11 wSegs 1 50 900000 (1/2) 50 none none wState).stopState =
      (if (900000 - 600000 : ℚ) / 60000 < requiredStopDuration wStopSeg then wState
       else departStop wState) ∧
    (50 : ℚ) < min 100 (50 + 1) :=
  dwell_hold_and_release wCoords11 wSegs 1 50 900000 (1/2) 50 none none wState 0
    wStopSeg 600000 (by decide) rfl rfl wStop_windowMatch rfl (by decide) rfl
    (by norm_num) (by norm_num) (by norm_num)

/-- C9: the tick's stop scan acts on exactly the first stop (in ascending
order) whose window matches the current fraction (all earlier stops fail the
window test and later stops are not examined), and each stop's
completion-fraction estimate is its rank among all ordered segments mapped
to a path index and then to a fraction, exactly as in
`findStopPositionInRoute`. -/
theorem stop_candidate_first_match (prog now : ℚ) (coords : List Point)
    (allSegs stops : List Segment) (st : StopState) (s : Segment)
    (rank i : ℕ)
    (hlen : 2 ≤ (sortByOrder allSegs).length)
    (hclen : 2 ≤ coords.length)
    (hrank : firstMatchIdx (fun t => decide (t.id = s.id)) (sortByOrder allSegs) =
      some rank)
    (hfm : firstMatchIdx (fun x => windowMatch prog x coords allSegs) stops =
      some i) :
    scanStops prog now coords allSegs 0 stops st =
      scanStepAt now (stops.getD i default) i st ∧
    windowMatch prog (stops.getD i default) coords allSegs = true ∧
    (stops.take i).all (fun x => !windowMatch prog x coords allSegs) = true ∧
    stopProgressPercent s coords allSegs =
      some ((((min ⌊((rank : ℚ) / (((sortByOrder allSegs).length : ℚ) - 1)) *
                  (((coords.length : ℤ) : ℚ) - 1)⌋ ((coords.length : ℤ) - 1)) : ℤ) : ℚ) /
            ((coords.length : ℚ) - 1) * 100) := by
  obtain ⟨h1, h2⟩ := firstMatchIdx_spec _ stops i hfm
  have hscan := scanStops_eq_firstMatch prog now coords allSegs stops 0 st
  rw [hfm] at hscan
  have hscan2 : scanStops prog now coords allSegs 0 stops st =
      scanStepAt now (stops.getD i default) (0 + i) st := hscan
  rw [Nat.zero_add] at hscan2
  refine ⟨hscan2, h1, h2, ?_⟩
  have hne1 : ¬(sortByOrder allSegs).length = 1 := by omega
  have hne2 : ¬coords.length = 1 := by omega
  simp only [stopProgressPercent, findStopPositionInRoute, hrank, if_neg hne1,
    if_neg hne2]

/-- C9 witness: the candidate-selection theorem at a concrete tick with the
witness stop at rank 1 of 3 segments on an 11-point path. -/
theorem stop_candidate_first_match_witness :
    scanStops 50 0 wCoords11 wSegs 0 [wStopSeg] default =
      scanStepAt 0 ([wStopSeg].getD 0 default) 0 default ∧
    windowMatch 50 ([wStopSeg].getD 0 default) wCoords11 wSegs = true ∧
    (([wStopSeg].take 0).all fun x => !windowMatch 50 x wCoords11 wSegs) = true ∧
    stopProgressPercent wStopSeg wCoords11 wSegs =
      some ((((min ⌊((1 : ℕ) : ℚ) / (((sortByOrder wSegs).length : ℚ) - 1) *
            (((wCoords11.length : ℤ) : ℚ) - 1)⌋ ((wCoords11.length : ℤ) - 1)) : ℤ) : ℚ) /
        ((wCoords11.length : ℚ) - 1) * 100) :=
  stop_candidate_first_match 50 0 wCoords11 wSegs [wStopSeg] default wStopSeg 1 0
    (by decide) (by decide) (by decide)
    (by simp [firstMatchIdx, wStop_windowMatch])

/-- C10: a stop segment whose `stop_duration` is missing or 0 is dwelled at
for the default of 30 minutes once its window is entered, even though the
same segment contributes 0 minutes to the aggregate stop-duration estimate
built at tracking start. -/
theorem default_dwell_thirty (s : Segment) (now t0 : ℚ) (i : ℕ) (st : StopState)
    (hstop : s.kind = SegKind.stop)
    (hfalsy : s.stop_duration = none ∨ s.stop_duration = some 0)
    (hat : st.isAtStop = true)
    (hidx : st.currentStopIndex = (i : ℤ))
    (ht : st.stopStartTime = some t0)
    (ht0 : t0 ≠ 0) :
    requiredStopDuration s = 30 ∧
    stopDurationContribution s = 0 ∧
    (initStopState (some [s])).totalStopDuration = 0 ∧
    scanStepAt now s i st =
      (if (now - t0) / 60000 < 30 then ScanOut.hold st
       else ScanOut.release (departStop st)) := by
  have hreq : requiredStopDuration s = 30 := by
    rcases hfalsy with h | h <;> simp [requiredStopDuration, orElseFalsy, h]
  have hcontrib : stopDurationContribution s = 0 := by
    rcases hfalsy with h | h <;> simp [stopDurationContribution, orElseFalsy, h]
  refine ⟨hreq, hcontrib, ?_, ?_⟩
  · simp [initStopState, sortByOrder, List.insertionSort, hstop, hcontrib]
  · rw [scanStepAt_at_stop now t0 s i st hat hidx ht ht0, hreq]

/-- C10 witness: the default-dwell theorem at a concrete stop with a missing
`stop_duration`, 5 minutes after arrival. -/
theorem default_dwell_thirty_witness :
    requiredStopDuration wStopDefault = 30 ∧
    stopDurationContribution wStopDefault = 0 ∧
    (initStopState (some [wStopDefault])).totalStopDuration = 0 ∧
    scanStepAt 900000 wStopDefault 0 wState =
      (if (900000 - 600000 : ℚ) / 60000 < 30 then ScanOut.hold wState
       else ScanOut.release (departStop wState)) :=
  default_dwell_thirty wStopDefault 900000 600000 0 wState rfl (Or.inl rfl) rfl
    (by decide) rfl (by norm_num)

/-- C1: code-bug evidence.  On the concrete trip (waypoint, 30-minute stop,
waypoint; each leg 15 minutes of travel) the synthesizer's duration is 60
minutes because it already includes the stop dwell, and the tracking loop
feeds that duration unchanged into `pureTravelTimeMinutes`, so the per-tick
increment is `100 / ceil(60 * 3)` rather than the dwell-free
`100 / ceil((60 - 30) * 3)` the specification (and the code's own comment,
which calls the value "pure travel time WITHOUT stop durations") require. -/
theorem progress_increment_includes_dwell :
    ∃ r, calculateRouteFromSegments cDist zeroCurve cRouter [cSegA, cSegB, cSegC] =
        Except.ok r ∧
      r.duration = 60 ∧
      (initStopState (some [cSegA, cSegB, cSegC])).totalStopDuration = 30 ∧
      progressPerUpdate (pureTravelTimeMinutes r.duration r.distance 50) = 5/9 ∧
      progressPerUpdate (pureTravelTimeMinutes (r.duration - 30) r.distance 50) =
        10/9 ∧
      progressPerUpdate (pureTravelTimeMinutes r.duration r.distance 50) ≠
        progressPerUpdate (pureTravelTimeMinutes (r.duration - 30) r.distance 50) := by
  have hs1 : synthStep cDist zeroCurve cRouter 0 cSegA cSegB
      { totalDistance := 0, totalDuration := 0, allCoordinates := [] } =
      { totalDistance := 10, totalDuration := 15,
        allCoordinates := [⟨1, 1⟩, ⟨2, 2⟩] } := by
    norm_num [synthStep, getRouteFromOSRM, isValidCoordinate, cDist, cRouter,
      cSegA, cSegB, pairStartPoint, pairEndPoint, orElseFalsy, Point.mk.injEq,
      List.cons_ne_nil]
  have hs2 : synthStep cDist zeroCurve cRouter 1 cSegB cSegC
      { totalDistance := 10, totalDuration := 15,
        allCoordinates := [⟨1, 1⟩, ⟨2, 2⟩] } =
      { totalDistance := 20, totalDuration := 60,
        allCoordinates := [⟨1, 1⟩, ⟨2, 2⟩, ⟨3, 3⟩] } := by
    norm_num [synthStep, getRouteFromOSRM, isValidCoordinate, cDist, cRouter,
      cSegB, cSegC, pairStartPoint, pairEndPoint, orElseFalsy, Point.mk.injEq,
      List.cons_ne_nil, List.getLast?]
  have hsort : sortByOrder [cSegA, cSegB, cSegC] = [cSegA, cSegB, cSegC] := by
    decide
  have hloop : synthLoop cDist zeroCurve cRouter 0 [cSegA, cSegB, cSegC]
      { totalDistance := 0, totalDuration := 0, allCoordinates := [] } =
      { totalDistance := 20, totalDuration := 60,
        allCoordinates := [⟨1, 1⟩, ⟨2, 2⟩, ⟨3, 3⟩] } := by
    simp only [synthLoop]
    rw [hs1, hs2]
  have hcalc : calculateRouteFromSegments cDist zeroCurve cRouter
      [cSegA, cSegB, cSegC] =
      Except.ok { coordinates := [⟨1, 1⟩, ⟨2, 2⟩, ⟨3, 3⟩], distance := 20,
                  duration := 60 } := by
    simp only [calculateRouteFromSegments, hsort, hloop]
    norm_num [jsRound, List.cons_ne_nil, max_def]
  have hstop : (initStopState (some [cSegA, cSegB, cSegC])).totalStopDuration = 30 := by
    norm_num [initStopState, sortByOrder, List.insertionSort, List.orderedInsert,
      stopDurationContribution, orElseFalsy, cSegA, cSegB, cSegC]
  have hppu1 : progressPerUpdate (pureTravelTimeMinutes 60 20 50) = 5/9 := by
    norm_num [progressPerUpdate, pureTravelTimeMinutes, totalTravelUpdates]
  have hppu2 : progressPerUpdate (pureTravelTimeMinutes (60 - 30) 20 50) = 10/9 := by
    norm_num [progressPerUpdate, pureTravelTimeMinutes, totalTravelUpdates]
  refine ⟨_, hcalc, rfl, hstop, ?_, ?_, ?_⟩
  · exact hppu1
  · exact hppu2
  · have hne : progressPerUpdate (pureTravelTimeMinutes 60 20 50) ≠
        progressPerUpdate (pureTravelTimeMinutes (60 - 30) 20 50) := by
      rw [hppu1, hppu2]
      norm_num
    exact hne

/-- C3 witness: the monotonicity theorem instantiated at a concrete tick. -/
theorem progress_monotone_tick_witness :
    (50 : ℚ) ≤ (tick [] [] 1 50 0 0 50 none none default).newProgress ∧
    (tick [] [] 1 50 0 0 50 none none default).newProgress ≤ 100 ∧
    (tick [] [] 1 50 0 0 50 none none default).newProgress =
      (if (tick [] [] 1 50 0 0 50 none none default).isMoving = true
       then min 100 (50 + 1 : ℚ) else 50) ∧
    (50 : ℚ) < min 100 (50 + 1) :=
  progress_monotone_tick [] [] 1 50 0 0 50 none none default
    (by norm_num) (by norm_num)

end Track
